import Mathlib

/-!
Shallow embedding of the `poller` Go package (src/poller.go, src/options.go).

The embedding is parametric over three types:
  * `Ctx` models Go's `context.Context` (opaque to the engine),
  * `V`   models the `interface{}` payload returned by the getter,
  * `E`   models Go's `error` type (a `some e` stands for a non-nil error,
          `none` for a nil error).

Side effects are made observable:
  * an error handler (`OnError`) is a function producing a list of log
    events; the library default `defaultOnError` calls `log.Println`, which
    is recorded as a `LogEvent.println`;
  * `Poll` returns, next to the (unchanged) receiver, a `PollTrace`
    recording every pusher invocation `(pusher, ctx, value)` and every
    error-handler invocation `(handler, ctx, err)`, in execution order.
-/

/-- One observable effect of an error handler; `log.Println err` in the Go
source is recorded as `println err`. -/
inductive LogEvent (E : Type) : Type where
  | println (e : E)
deriving DecidableEq

/-- Go: `type Getter func(context.Context) (interface{}, error)`.
Returns a payload and an optional (nil-able) error. -/
def Getter (Ctx V E : Type) : Type := Ctx → V × Option E

/-- Go: `type Pusher func(context.Context, interface{}) error`. -/
def Pusher (Ctx V E : Type) : Type := Ctx → V → Option E

/-- Go: `type OnError func(context.Context, error)`; its side effects are
modelled as the list of log events it emits. -/
def OnError (Ctx E : Type) : Type := Ctx → E → List (LogEvent E)

/-- Go: `func defaultOnError(_ context.Context, err error) { log.Println(err) }`. -/
def defaultOnError {Ctx E : Type} : OnError Ctx E := fun _ e => [LogEvent.println e]

/-- Go: the `Poller` struct of src/poller.go. `interval` is an `int64`
(milliseconds), modelled as `Int`. -/
structure Poller (Ctx V E : Type) : Type where
  interval : Int
  getter : Getter Ctx V E
  pushers : List (Pusher Ctx V E)
  onError : OnError Ctx E

/-- Go: `type Option func(*Poller) error` (src/options.go). An option
mutates the poller through the pointer and returns an error; this is
modelled as returning the updated poller together with the optional error,
so mutations made before a failure survive it, exactly as with `*Poller`.
(Named `Opt` because `Option` is taken by Lean's core library.) -/
def Opt (Ctx V E : Type) : Type := Poller Ctx V E → Poller Ctx V E × Option E

/-- Go: `SetInterval(v int64) Option` — stores `v` in `p.interval`,
returns nil. No validation is performed. -/
def SetInterval {Ctx V E : Type} (v : Int) : Opt Ctx V E :=
  fun p => ({ p with interval := v }, none)

/-- Go: `SetPusher(fn Pusher) Option` — appends `fn` to `p.pushers`,
returns nil. -/
def SetPusher {Ctx V E : Type} (fn : Pusher Ctx V E) : Opt Ctx V E :=
  fun p => ({ p with pushers := p.pushers ++ [fn] }, none)

/-- Go: `SetOnError(fn OnError) Option` — replaces `p.onError` with `fn`,
returns nil. -/
def SetOnError {Ctx V E : Type} (fn : OnError Ctx E) : Opt Ctx V E :=
  fun p => ({ p with onError := fn }, none)

/-- The default-valued poller built at the top of `New` before any option
runs: `Poller{interval: 30000, getter: g, onError: defaultOnError}`
(the `pushers` slice is left nil, i.e. empty). -/
def initPoller {Ctx V E : Type} (g : Getter Ctx V E) : Poller Ctx V E :=
  { interval := 30000, getter := g, pushers := [], onError := defaultOnError }

/-- The option-application loop of `New`:
`for _, opt := range opts { if err := opt(&p); err != nil { return p, err } }`.
On the first failing option the (already mutated) poller and the error are
returned; remaining options are not applied. -/
def applyOpts {Ctx V E : Type} (p : Poller Ctx V E) :
    List (Opt Ctx V E) → Poller Ctx V E × Option E
  | [] => (p, none)
  | opt :: rest =>
    match opt p with
    | (p', some e) => (p', some e)
    | (p', none) => applyOpts p' rest

/-- Go: `func New(g Getter, opts ...Option) (Poller, error)`. -/
def New {Ctx V E : Type} (g : Getter Ctx V E) (opts : List (Opt Ctx V E)) :
    Poller Ctx V E × Option E :=
  applyOpts (initPoller g) opts

/-- The observable behaviour of one `Poll` call: the pusher invocations
`(pusher, ctx, value)` and the error-handler invocations
`(handler, ctx, err)`, each in execution order. -/
structure PollTrace (Ctx V E : Type) : Type where
  pusherCalls : List (Pusher Ctx V E × Ctx × V)
  errorCalls : List (OnError Ctx E × Ctx × E)

/-- The pusher loop of `Poll`:
`for _, pp := range p.pushers { err := pp(ctx, gr); if err != nil { p.onError(ctx, err) } }`.
Each pusher is invoked with `(ctx, gr)`; a non-nil error triggers one
`onE` invocation and the loop continues with the next pusher. -/
def pushLoop {Ctx V E : Type} (onE : OnError Ctx E) (ctx : Ctx) (gr : V) :
    List (Pusher Ctx V E) → PollTrace Ctx V E
  | [] => { pusherCalls := [], errorCalls := [] }
  | pp :: rest =>
    let tr := pushLoop onE ctx gr rest
    match pp ctx gr with
    | some e =>
      { pusherCalls := (pp, ctx, gr) :: tr.pusherCalls,
        errorCalls := (onE, ctx, e) :: tr.errorCalls }
    | none =>
      { pusherCalls := (pp, ctx, gr) :: tr.pusherCalls,
        errorCalls := tr.errorCalls }

/-- Go: `func (p Poller) Poll(ctx context.Context)` — value receiver, so the
returned first component is the receiver at method return (the body never
writes a field). `gr, err := p.getter(ctx)`; a non-nil `err` calls
`p.onError(ctx, err)` and returns; otherwise the pusher loop runs on `gr`. -/
def Poll {Ctx V E : Type} (p : Poller Ctx V E) (ctx : Ctx) :
    Poller Ctx V E × PollTrace Ctx V E :=
  match p.getter ctx with
  | (_, some e) => (p, { pusherCalls := [], errorCalls := [(p.onError, ctx, e)] })
  | (gr, none) => (p, pushLoop p.onError ctx gr p.pushers)

/-- The two control states of the `Start` loop: the `for`/`select` loop is
running, or `return` has executed after `ctx.Done()`. -/
inductive Mode : Type where
  | running
  | stopped
deriving DecidableEq

/-- State of one `Start` invocation: the (read-only) receiver, whether the
loop is still running, whether `ticker.Stop()` has run, and the traces of
the `go p.Poll(ctx)` cycles launched so far, in launch order. -/
structure LoopState (Ctx V E : Type) : Type where
  poller : Poller Ctx V E
  mode : Mode
  tickerStopped : Bool
  launched : List (PollTrace Ctx V E)

/-- One iteration of the `select` in `Start`. `doneReady` / `tickReady` say
whether `<-ctx.Done()` / `<-ticker.C` can proceed. Per the Go language
specification, when several cases can proceed `select` picks one of them by
uniform pseudo-random choice, so from a state where both are ready both
constructors apply: there is no priority between the cases. -/
inductive startStep {Ctx V E : Type} (ctx : Ctx) (doneReady tickReady : Bool) :
    LoopState Ctx V E → LoopState Ctx V E → Prop where
  | ctxDone (s : LoopState Ctx V E) (hrun : s.mode = Mode.running)
      (hr : doneReady = true) :
      startStep ctx doneReady tickReady s
        { poller := s.poller, mode := Mode.stopped, tickerStopped := true,
          launched := s.launched }
  | tickFired (s : LoopState Ctx V E) (hrun : s.mode = Mode.running)
      (hr : tickReady = true) :
      startStep ctx doneReady tickReady s
        { poller := s.poller, mode := Mode.running,
          tickerStopped := s.tickerStopped,
          launched := s.launched ++ [(Poll s.poller ctx).2] }

/-- Any finite number of `Start` loop iterations, with arbitrary channel
readiness at each iteration. -/
inductive startRun {Ctx V E : Type} (ctx : Ctx) :
    LoopState Ctx V E → LoopState Ctx V E → Prop where
  | refl (s : LoopState Ctx V E) : startRun ctx s s
  | step (s₁ s₂ s₃ : LoopState Ctx V E) (dr tr : Bool) :
      startStep ctx dr tr s₁ s₂ → startRun ctx s₂ s₃ → startRun ctx s₁ s₃

/-! ### Concrete fixtures for witnesses and counterexamples -/

/-- A concrete getter over `Nat` payloads that always succeeds with `0`. -/
def okGetter : Getter Nat Nat Nat := fun _ => (0, none)

/-- A concrete getter that always fails with error `5`. -/
def failGetter : Getter Nat Nat Nat := fun _ => (0, some 5)

/-- A concrete pusher that always succeeds. -/
def okPusher : Pusher Nat Nat Nat := fun _ _ => none

/-- A concrete pusher that always fails with error `9`. -/
def failPusher : Pusher Nat Nat Nat := fun _ _ => some 9

/-- A concrete replacement error handler that emits nothing (distinct from
`defaultOnError`, which emits a `println`). -/
def silentOnError : OnError Nat Nat := fun _ _ => []

/-- A concrete option that mutates the interval and then fails with
error `7`, exercising the partial-mutation behaviour of `*Poller` options. -/
def badOpt : Opt Nat Nat Nat := fun p => ({ p with interval := 99 }, some 7)

/-- A concrete poller used by the `Start`-loop fixtures. -/
def cexPoller : Poller Nat Nat Nat := initPoller okGetter

/-- A running loop state over `cexPoller` with nothing launched yet. -/
def cexLoop : LoopState Nat Nat Nat :=
  { poller := cexPoller, mode := Mode.running, tickerStopped := false,
    launched := [] }

/-! ### Helper lemmas -/

/-- Declarative characterisation of the pusher loop: pushers are invoked in
list order, each with `(ctx, gr)`, and the failing ones contribute one
`onE` invocation each, in the same order. -/
theorem pushLoop_eq {Ctx V E : Type} (onE : OnError Ctx E) (ctx : Ctx) (gr : V)
    (ps : List (Pusher Ctx V E)) :
    pushLoop onE ctx gr ps =
      { pusherCalls := ps.map (fun pp => (pp, ctx, gr)),
        errorCalls :=
          ps.filterMap (fun pp => (pp ctx gr).map (fun e => (onE, ctx, e))) } := by
  induction ps with
  | nil => rfl
  | cons pp rest ih =>
    cases h : pp ctx gr with
    | some e => simp [pushLoop, h, ih]
    | none => simp [pushLoop, h, ih]

/-- Counting the failing pushers: the error-handler invocations of the
pusher loop are exactly one per pusher whose result is non-nil. -/
theorem filterMap_some_length {Ctx V E : Type} (onE : OnError Ctx E) (ctx : Ctx)
    (gr : V) (ps : List (Pusher Ctx V E)) :
    (ps.filterMap (fun pp => (pp ctx gr).map (fun e => (onE, ctx, e)))).length =
      (ps.filter (fun pp => (pp ctx gr).isSome)).length := by
  induction ps with
  | nil => rfl
  | cons pp rest ih =>
    cases h : pp ctx gr with
    | some e => simp [h, ih]
    | none => simp [h, ih]

/-- `Poll` on a failing getter, as an equation. -/
theorem Poll_getter_err {Ctx V E : Type} (p : Poller Ctx V E) (ctx : Ctx)
    (gr : V) (e : E) (hg : p.getter ctx = (gr, some e)) :
    Poll p ctx = (p, { pusherCalls := [], errorCalls := [(p.onError, ctx, e)] }) := by
  unfold Poll
  rw [hg]

/-- `Poll` on a succeeding getter, as an equation. -/
theorem Poll_getter_ok {Ctx V E : Type} (p : Poller Ctx V E) (ctx : Ctx)
    (gr : V) (hg : p.getter ctx = (gr, none)) :
    Poll p ctx = (p, pushLoop p.onError ctx gr p.pushers) := by
  unfold Poll
  rw [hg]

/-- Every error-handler invocation recorded by `Poll` uses the poller's own
`onError` field. -/
theorem errorCalls_handler {Ctx V E : Type} (p : Poller Ctx V E) (ctx : Ctx) :
    ∀ entry ∈ (Poll p ctx).2.errorCalls, entry.1 = p.onError := by
  intro entry hmem
  cases hg : p.getter ctx with
  | mk gr err =>
    cases err with
    | some e =>
      rw [Poll_getter_err p ctx gr e hg] at hmem
      simp at hmem
      rw [hmem]
    | none =>
      rw [Poll_getter_ok p ctx gr hg, pushLoop_eq] at hmem
      simp only [List.mem_filterMap, Option.map_eq_some'] at hmem
      obtain ⟨pp, _, e, _, hentry⟩ := hmem
      rw [← hentry]

/-- `applyOpts` steps over a failing head option, as an equation. -/
theorem applyOpts_cons_err {Ctx V E : Type} (o : Opt Ctx V E)
    (rest : List (Opt Ctx V E)) (p p' : Poller Ctx V E) (e : E)
    (ho : o p = (p', some e)) :
    applyOpts p (o :: rest) = (p', some e) := by
  unfold applyOpts
  rw [ho]

/-- `applyOpts` steps over a succeeding head option, as an equation. -/
theorem applyOpts_cons_ok {Ctx V E : Type} (o : Opt Ctx V E)
    (rest : List (Opt Ctx V E)) (p p' : Poller Ctx V E)
    (ho : o p = (p', none)) :
    applyOpts p (o :: rest) = applyOpts p' rest := by
  have h1 : applyOpts p (o :: rest) =
      match o p with
      | (p', some e) => (p', some e)
      | (p', none) => applyOpts p' rest := rfl
  rw [h1, ho]

/-- Appending option lists when the first part fully succeeds. -/
theorem applyOpts_append_ok {Ctx V E : Type} (l₁ l₂ : List (Opt Ctx V E)) :
    ∀ (p p₁ : Poller Ctx V E), applyOpts p l₁ = (p₁, none) →
      applyOpts p (l₁ ++ l₂) = applyOpts p₁ l₂ := by
  induction l₁ with
  | nil =>
    intro p p₁ h
    simp only [applyOpts] at h
    rw [List.nil_append, (Prod.mk.injEq _ _ _ _).mp h |>.1]
  | cons o rest ih =>
    intro p p₁ h
    cases ho : o p with
    | mk p' err =>
      cases err with
      | some e =>
        rw [applyOpts_cons_err o rest p p' e ho] at h
        simp at h
      | none =>
        rw [applyOpts_cons_ok o rest p p' ho] at h
        rw [List.cons_append, applyOpts_cons_ok o (rest ++ l₂) p p' ho]
        exact ih p' p₁ h

/-- Appending option lists when the first part ends in a failure: the
result is that failure together with the poller as mutated so far, and the
second part is never applied. -/
theorem applyOpts_append_err {Ctx V E : Type} (l₁ l₂ : List (Opt Ctx V E)) :
    ∀ (p p₁ : Poller Ctx V E) (e : E), applyOpts p l₁ = (p₁, some e) →
      applyOpts p (l₁ ++ l₂) = (p₁, some e) := by
  induction l₁ with
  | nil =>
    intro p p₁ e h
    simp [applyOpts] at h
  | cons o rest ih =>
    intro p p₁ e h
    cases ho : o p with
    | mk p' err =>
      cases err with
      | some e' =>
        rw [applyOpts_cons_err o rest p p' e' ho] at h
        rw [List.cons_append, applyOpts_cons_err o (rest ++ l₂) p p' e' ho]
        exact h
      | none =>
        rw [applyOpts_cons_ok o rest p p' ho] at h
        rw [List.cons_append, applyOpts_cons_ok o (rest ++ l₂) p p' ho]
        exact ih p' p₁ e h

/-- Appending a final `SetOnError` to a successful option list installs
that handler. -/
theorem applyOpts_setOnError {Ctx V E : Type} (h : OnError Ctx E)
    (l : List (Opt Ctx V E)) :
    ∀ (q p : Poller Ctx V E), applyOpts q (l ++ [SetOnError h]) = (p, none) →
      p.onError = h := by
  induction l with
  | nil =>
    intro q p hap
    rw [List.nil_append,
      applyOpts_cons_ok (SetOnError h) [] q { q with onError := h } rfl] at hap
    simp only [applyOpts] at hap
    rw [← (Prod.mk.injEq _ _ _ _).mp hap |>.1]
  | cons o rest ih =>
    intro q p hap
    cases ho : o q with
    | mk q' err =>
      cases err with
      | some e =>
        rw [List.cons_append,
          applyOpts_cons_err o (rest ++ [SetOnError h]) q q' e ho] at hap
        simp at hap
      | none =>
        rw [List.cons_append,
          applyOpts_cons_ok o (rest ++ [SetOnError h]) q q' ho] at hap
        exact ih q' p hap

/-! ### Claim theorems -/

/-- C1: if the getter invoked by `Poll` returns a failure, then `Poll`
invokes the error handler exactly once, with that context and that failure,
and invokes none of the configured pushers. -/
theorem poll_retrieval_failure_aborts {Ctx V E : Type} (p : Poller Ctx V E)
    (ctx : Ctx) (gr : V) (e : E) (hg : p.getter ctx = (gr, some e)) :
    (Poll p ctx).2.errorCalls = [(p.onError, ctx, e)] ∧
    (Poll p ctx).2.pusherCalls = [] := by
  rw [Poll_getter_err p ctx gr e hg]
  exact ⟨rfl, rfl⟩

/-- Witness for C1 at a concrete poller whose getter fails with error `5`
despite a configured pusher. -/
theorem poll_retrieval_failure_aborts_witness :
    failGetter 0 = ((0 : Nat), some 5) ∧
    (Poll { interval := 30000, getter := failGetter, pushers := [okPusher],
            onError := defaultOnError } 0).2.errorCalls =
      [(defaultOnError, 0, 5)] ∧
    (Poll { interval := 30000, getter := failGetter, pushers := [okPusher],
            onError := defaultOnError } 0).2.pusherCalls = [] :=
  ⟨rfl, poll_retrieval_failure_aborts
    { interval := 30000, getter := failGetter, pushers := [okPusher],
      onError := defaultOnError } 0 0 5 rfl⟩

/-- A concrete poller with three pushers, of which the first and third
fail, used by the C2 and C3 witnesses. -/
def mixedPoller : Poller Nat Nat Nat :=
  { interval := 30000, getter := okGetter,
    pushers := [failPusher, okPusher, failPusher], onError := silentOnError }

/-- C2: if the getter succeeds, `Poll` invokes all `N` configured pushers
(a failing pusher never prevents later ones) and invokes the error handler
exactly `M` times, once per failing pusher with that pusher's failure. -/
theorem poll_consumers_independent_error_count {Ctx V E : Type}
    (p : Poller Ctx V E) (ctx : Ctx) (gr : V)
    (hg : p.getter ctx = (gr, none)) :
    (Poll p ctx).2.pusherCalls.length = p.pushers.length ∧
    (Poll p ctx).2.errorCalls =
      p.pushers.filterMap
        (fun pp => (pp ctx gr).map (fun e => (p.onError, ctx, e))) ∧
    (Poll p ctx).2.errorCalls.length =
      (p.pushers.filter (fun pp => (pp ctx gr).isSome)).length := by
  rw [Poll_getter_ok p ctx gr hg, pushLoop_eq]
  exact ⟨by simp, rfl, filterMap_some_length p.onError ctx gr p.pushers⟩

/-- Witness for C2: three pushers, two failing, so three pusher calls and
two error-handler calls. -/
theorem poll_consumers_independent_error_count_witness :
    okGetter 0 = ((0 : Nat), none) ∧
    mixedPoller.pushers.length = 3 ∧
    (mixedPoller.pushers.filter (fun pp => (pp 0 0).isSome)).length = 2 ∧
    (Poll mixedPoller 0).2.pusherCalls.length = mixedPoller.pushers.length ∧
    (Poll mixedPoller 0).2.errorCalls.length =
      (mixedPoller.pushers.filter (fun pp => (pp 0 0).isSome)).length :=
  ⟨rfl, rfl, rfl,
    (poll_consumers_independent_error_count mixedPoller 0 0 rfl).1,
    (poll_consumers_independent_error_count mixedPoller 0 0 rfl).2.2⟩

/-- C3: if the getter succeeds, `Poll` invokes the pushers exactly in
configured order, and each receives the retrieved value the getter
returned. -/
theorem poll_consumers_ordered_same_value {Ctx V E : Type}
    (p : Poller Ctx V E) (ctx : Ctx) (gr : V)
    (hg : p.getter ctx = (gr, none)) :
    (Poll p ctx).2.pusherCalls = p.pushers.map (fun pp => (pp, ctx, gr)) := by
  rw [Poll_getter_ok p ctx gr hg, pushLoop_eq]

/-- Witness for C3 at the three-pusher fixture: call order matches
configuration order and every call carries the retrieved value `0`. -/
theorem poll_consumers_ordered_same_value_witness :
    okGetter 0 = ((0 : Nat), none) ∧
    (Poll mixedPoller 0).2.pusherCalls =
      [(failPusher, 0, 0), (okPusher, 0, 0), (failPusher, 0, 0)] :=
  ⟨rfl, poll_consumers_ordered_same_value mixedPoller 0 0 rfl⟩

/-- C4 counterexample: from a running loop state with both the
cancellation channel and the ticker channel ready, `Start`'s `select` may
take the ticker branch and launch another cycle while remaining RUNNING,
so cancellation does not take precedence. -/
theorem start_cancel_precedence_cex :
    ¬ (∀ s' : LoopState Nat Nat Nat,
        startStep 0 true true cexLoop s' → s'.mode = Mode.stopped) := by
  intro hall
  have h := hall
    { poller := cexLoop.poller, mode := Mode.running,
      tickerStopped := cexLoop.tickerStopped,
      launched := cexLoop.launched ++ [(Poll cexLoop.poller 0).2] }
    (startStep.tickFired cexLoop rfl rfl)
  exact Mode.noConfusion h

/-- C4 (amended): when both the timer-elapsed signal and the cancellation
signal are ready, the `select` in `Start` may take either branch — the
stop transition (timer stopped, state STOPPED) and the tick transition
(another cycle launched, state RUNNING) are both permitted, with no
precedence between them; the loop reaches STOPPED only through the
cancellation branch. -/
theorem start_cancel_no_precedence {Ctx V E : Type} (ctx : Ctx)
    (s : LoopState Ctx V E) (hrun : s.mode = Mode.running) :
    startStep ctx true true s
      { poller := s.poller, mode := Mode.stopped, tickerStopped := true,
        launched := s.launched } ∧
    startStep ctx true true s
      { poller := s.poller, mode := Mode.running,
        tickerStopped := s.tickerStopped,
        launched := s.launched ++ [(Poll s.poller ctx).2] } ∧
    (∀ (dr tr : Bool) (s' : LoopState Ctx V E),
      startStep ctx dr tr s s' → s'.mode = Mode.stopped → dr = true) :=
  ⟨startStep.ctxDone s hrun rfl, startStep.tickFired s hrun rfl, by
    intro dr tr s' hstep hmode
    cases hstep with
    | ctxDone _ hr => exact hr
    | tickFired _ _ => exact Mode.noConfusion hmode⟩

/-- Witness for the amended C4 at a concrete running loop state. -/
theorem start_cancel_no_precedence_witness :
    cexLoop.mode = Mode.running ∧
    startStep (0 : Nat) true true cexLoop
      { poller := cexLoop.poller, mode := Mode.stopped, tickerStopped := true,
        launched := cexLoop.launched } :=
  ⟨rfl, (start_cancel_no_precedence 0 cexLoop rfl).1⟩

/-- C5: `New` applies the options in order and short-circuits on the first
failing one: that failure is returned, and the options after the failing
one are never applied (the result does not depend on them). -/
theorem new_first_failure_short_circuits {Ctx V E : Type}
    (g : Getter Ctx V E) (pre post : List (Opt Ctx V E)) (bad : Opt Ctx V E)
    (p₁ p₂ : Poller Ctx V E) (e : E)
    (hpre : applyOpts (initPoller g) pre = (p₁, none))
    (hbad : bad p₁ = (p₂, some e)) :
    (New g (pre ++ bad :: post)).2 = some e ∧
    New g (pre ++ bad :: post) = New g (pre ++ [bad]) := by
  unfold New
  have h1 : applyOpts (initPoller g) (pre ++ bad :: post) = (p₂, some e) := by
    rw [applyOpts_append_ok pre (bad :: post) (initPoller g) p₁ hpre,
      applyOpts_cons_err bad post p₁ p₂ e hbad]
  have h2 : applyOpts (initPoller g) (pre ++ [bad]) = (p₂, some e) := by
    rw [applyOpts_append_ok pre [bad] (initPoller g) p₁ hpre,
      applyOpts_cons_err bad [] p₁ p₂ e hbad]
  rw [h1, h2]
  exact ⟨rfl, rfl⟩

/-- Witness for C5: a succeeding `SetInterval 5`, then a failing option,
then a further `SetInterval 11` that is never applied. -/
theorem new_first_failure_short_circuits_witness :
    applyOpts (initPoller okGetter) [SetInterval 5] =
      ({ initPoller okGetter with interval := 5 }, none) ∧
    badOpt { initPoller okGetter with interval := 5 } =
      ({ initPoller okGetter with interval := 99 }, some 7) ∧
    (New okGetter ([SetInterval 5] ++ badOpt :: [SetInterval 11])).2 = some 7 :=
  ⟨rfl, rfl,
    (new_first_failure_short_circuits okGetter [SetInterval 5] [SetInterval 11]
      badOpt { initPoller okGetter with interval := 5 }
      { initPoller okGetter with interval := 99 } 7 rfl rfl).1⟩

/-- C6: `New` with no options succeeds and returns a poller with interval
30000 ms, an empty pusher list, the given getter, and the default error
handler, which logs the failure (one `println`) and continues. -/
theorem new_default_configuration {Ctx V E : Type} (g : Getter Ctx V E) :
    (New g []).2 = none ∧
    (New g []).1.interval = 30000 ∧
    (New g []).1.pushers = [] ∧
    (New g []).1.getter = g ∧
    (New g []).1.onError = defaultOnError ∧
    (∀ (c : Ctx) (e : E), defaultOnError c e = [LogEvent.println e]) :=
  ⟨rfl, rfl, rfl, rfl, rfl, fun _ _ => rfl⟩

/-- C7 counterexample: `SetInterval 0` is accepted and stored, so the
constructed poller's interval is `0`, not strictly positive. -/
theorem setInterval_nonpositive_cex :
    ¬ (0 < (New okGetter [SetInterval 0]).1.interval) := by
  decide

/-- C7 (amended): `SetInterval` stores the passed value verbatim and never
fails — construction performs no positivity validation, so the resulting
poller's interval equals whatever value was passed, strictly positive or
not (a non-positive interval is only rejected later, by the ticker inside
`Start`). -/
theorem setInterval_stores_verbatim {Ctx V E : Type} (g : Getter Ctx V E)
    (v : Int) (p : Poller Ctx V E) :
    SetInterval v p = ({ p with interval := v }, none) ∧
    (New g [SetInterval v]).1.interval = v ∧
    (New g [SetInterval v]).2 = none :=
  ⟨rfl, rfl, rfl⟩

/-- C8: constructing with a final `SetOnError h` installs `h` wholesale:
the poller's handler is `h`, every failure arising in `Poll` is routed to
`h`, and (whenever `h` differs from it) the default logging handler is
never invoked. -/
theorem setOnError_wholesale_replacement {Ctx V E : Type}
    (g : Getter Ctx V E) (h : OnError Ctx E) (pre : List (Opt Ctx V E))
    (p : Poller Ctx V E) (hp : New g (pre ++ [SetOnError h]) = (p, none)) :
    p.onError = h ∧
    (∀ (ctx : Ctx), ∀ entry ∈ (Poll p ctx).2.errorCalls, entry.1 = h) ∧
    (h ≠ defaultOnError →
      ∀ (ctx : Ctx), ∀ entry ∈ (Poll p ctx).2.errorCalls,
        entry.1 ≠ defaultOnError) := by
  have hon : p.onError = h := applyOpts_setOnError h pre (initPoller g) p hp
  refine ⟨hon, ?_, ?_⟩
  · intro ctx entry hmem
    rw [errorCalls_handler p ctx entry hmem]
    exact hon
  · intro hne ctx entry hmem
    rw [errorCalls_handler p ctx entry hmem, hon]
    exact hne

/-- Witness for C8: replacing the handler with the silent one at
construction time. -/
theorem setOnError_wholesale_replacement_witness :
    New failGetter ([] ++ [SetOnError silentOnError]) =
      ({ interval := 30000, getter := failGetter, pushers := [],
         onError := silentOnError }, none) ∧
    ({ interval := 30000, getter := failGetter, pushers := [],
       onError := silentOnError } : Poller Nat Nat Nat).onError =
      silentOnError :=
  ⟨rfl, (setOnError_wholesale_replacement failGetter silentOnError []
    { interval := 30000, getter := failGetter, pushers := [],
      onError := silentOnError } rfl).1⟩

/-- C9: neither `Poll` nor the `Start` loop ever mutates the poller's
configuration — `Poll` returns its receiver unchanged, and every `Start`
loop step (hence every finite run) preserves the poller, so interval,
getter, pushers (contents and order) and error handler stay as configured. -/
theorem poll_start_config_readonly {Ctx V E : Type} :
    (∀ (p : Poller Ctx V E) (ctx : Ctx), (Poll p ctx).1 = p) ∧
    (∀ (ctx : Ctx) (dr tr : Bool) (s s' : LoopState Ctx V E),
      startStep ctx dr tr s s' → s'.poller = s.poller) ∧
    (∀ (ctx : Ctx) (s s' : LoopState Ctx V E),
      startRun ctx s s' → s'.poller = s.poller) := by
  refine ⟨?_, ?_, ?_⟩
  · intro p ctx
    cases hg : p.getter ctx with
    | mk gr err =>
      cases err with
      | some e => rw [Poll_getter_err p ctx gr e hg]
      | none => rw [Poll_getter_ok p ctx gr hg]
  · intro ctx dr tr s s' hstep
    cases hstep with
    | ctxDone _ _ => rfl
    | tickFired _ _ => rfl
  · intro ctx s s' hrun
    induction hrun with
    | refl s => rfl
    | step s₁ s₂ s₃ dr tr hstep hrest ih =>
      rw [ih]
      cases hstep with
      | ctxDone _ _ => rfl
      | tickFired _ _ => rfl

/-- Witness for C9: one `Poll` call and a one-step `Start` run at concrete
inputs leave the poller untouched. -/
theorem poll_start_config_readonly_witness :
    (Poll cexPoller 0).1 = cexPoller ∧
    ({ poller := cexPoller, mode := Mode.stopped, tickerStopped := true,
       launched := [] } : LoopState Nat Nat Nat).poller = cexLoop.poller :=
  ⟨poll_start_config_readonly.1 cexPoller 0,
    poll_start_config_readonly.2.2 0 cexLoop
      { poller := cexPoller, mode := Mode.stopped, tickerStopped := true,
        launched := [] }
      (startRun.step cexLoop
        { poller := cexPoller, mode := Mode.stopped, tickerStopped := true,
          launched := [] }
        { poller := cexPoller, mode := Mode.stopped, tickerStopped := true,
          launched := [] }
        true true (startStep.ctxDone cexLoop rfl rfl)
        (startRun.refl _))⟩

/-- C10: when an option fails, `New` does not return the default poller —
it returns, alongside the failure, the partially-configured poller in
which every option preceding (and including the mutation of) the failing
one has been applied. -/
theorem new_failure_returns_partial_poller {Ctx V E : Type}
    (g : Getter Ctx V E) (pre post : List (Opt Ctx V E)) (bad : Opt Ctx V E)
    (p₁ p₂ : Poller Ctx V E) (e : E)
    (hpre : applyOpts (initPoller g) pre = (p₁, none))
    (hbad : bad p₁ = (p₂, some e)) :
    (New g (pre ++ bad :: post)).1 = p₂ := by
  unfold New
  rw [applyOpts_append_ok pre (bad :: post) (initPoller g) p₁ hpre,
    applyOpts_cons_err bad post p₁ p₂ e hbad]

/-- Witness for C10: after `SetInterval 5` succeeds and the bad option
mutates the interval to `99` before failing, `New` returns the poller with
interval `99`, not the default. -/
theorem new_failure_returns_partial_poller_witness :
    applyOpts (initPoller okGetter) [SetInterval 5] =
      ({ initPoller okGetter with interval := 5 }, none) ∧
    badOpt { initPoller okGetter with interval := 5 } =
      ({ initPoller okGetter with interval := 99 }, some 7) ∧
    (New okGetter ([SetInterval 5] ++ badOpt :: [SetInterval 11])).1 =
      { initPoller okGetter with interval := 99 } :=
  ⟨rfl, rfl,
    new_failure_returns_partial_poller okGetter [SetInterval 5]
      [SetInterval 11] badOpt { initPoller okGetter with interval := 5 }
      { initPoller okGetter with interval := 99 } 7 rfl rfl⟩
